import Mathlib

/-!
Verification of the satir SAT solver core (src/satir) against its
natural-language specification.

The Rust sources are shallowly embedded: machine integers that are only ever
nonnegative in the program (variable indices, literal codes, value codes,
clause identifiers) become `Nat`; `Vec`/`TaggedVec` become `List` with
explicit bounds checks; a Rust panic (out-of-bounds vector index) becomes an
`Except.error` carrying the panic site; `BTreeSet<ClauseId>` becomes an
ascending duplicate-free `List Nat` with ordered insertion.  The search loop
of `solve` is given explicit fuel; running out of fuel is a distinct error
value, so `Except.ok` results correspond exactly to normally terminating runs
of the Rust code.
-/

namespace Satir

/-- A dense variable index (Rust `Variable(i32)`, always nonnegative). -/
structure Variable where
  idx : Nat
  deriving DecidableEq

/-- A literal code: `2 * v` is the positive literal of variable `v`,
`2 * v + 1` the negative one (Rust `Literal(i32)`). -/
structure Literal where
  code : Nat
  deriving DecidableEq

/-- A lifted truth value code (Rust `Value(i8)`): `LIFTED_TRUE = 0`,
`LIFTED_FALSE = 1`, `UNASSIGNED = 2`; `2 xor 1 = 3` is also representable. -/
structure Value where
  code : Nat
  deriving DecidableEq

def Value.LIFTED_FALSE : Value := ⟨1⟩

def Value.LIFTED_TRUE : Value := ⟨0⟩

def Value.UNASSIGNED : Value := ⟨2⟩

/-- Rust `Value::is_unassigned`: `*self >= Value::UNASSIGNED` under the
derived order on the code. -/
def Value.is_unassigned (v : Value) : Bool := 2 ≤ v.code

/-- Rust `Variable::to_positive_literal`: `vnum << 1`. -/
def Variable.to_positive_literal (v : Variable) : Literal := ⟨v.idx * 2⟩

/-- Rust `Variable::to_negative_literal`: `(vnum << 1) | 1`. -/
def Variable.to_negative_literal (v : Variable) : Literal := ⟨v.idx * 2 + 1⟩

/-- Rust `Literal::variable`: `lnum >> 1`. -/
def Literal.var (l : Literal) : Variable := ⟨l.code / 2⟩

/-- Rust `Literal::negate`: `lnum ^ 1`. -/
def Literal.negate (l : Literal) : Literal := ⟨l.code ^^^ 1⟩

/-- Rust `Literal::under_value`: `Value(val ^ ((lval & 1) as i8))`;
on nonnegative codes `lval & 1 = lval % 2`. -/
def Literal.under_value (l : Literal) (v : Value) : Value :=
  ⟨v.code ^^^ (l.code % 2)⟩

/-- Rust `Literal::satisfy`: `Value((lval & 1) as i8)`. -/
def Literal.satisfy (l : Literal) : Value := ⟨l.code % 2⟩

/-- Rust `core::Result`. -/
inductive Result where
  | Unsat
  | Sat
  deriving DecidableEq

/-- Rust `dpll::PropagateResult`. -/
inductive PropagateResult where
  | Conflict
  | NoConflict
  deriving DecidableEq

/-- A Rust panic site (all are out-of-bounds `Vec` indexing), plus a marker
for exhausted fuel of the embedded search loop. -/
inductive Fault where
  | oobAssignment (i : Nat)
  | oobWatchlist (i : Nat)
  | oobWatchlistInsert (i : Nat)
  | oobProblem (i : Nat)
  | oobClause (j : Nat)
  | fuelOut
  deriving DecidableEq

/-- Recognizes the panic raised by the `mem::replace` read of
`watchlist[false_lit]` at the top of `propagate_units`. -/
def Fault.is_oob_watchlist : Fault → Bool
  | .oobWatchlist _ => true
  | _ => false

/-- Rust `TaggedVec::ensure_index`: grow the vector to length `i` (with copies
of `t`) when it is shorter than `i`.  Mirrors the source exactly, including
the fact that the resize target is `i.as_index()` itself. -/
def ensure_index {α : Type} (v : List α) (i : Nat) (t : α) : List α :=
  if v.length < i then v ++ List.replicate (i - v.length) t else v

/-- A clause (Rust `clause::Clause`): identifier plus the literal slice.  The
header field `lit_count` always equals the slice length (it is set to the
literal count at parse time and never written again), so it is represented by
`lits.length`. -/
structure Clause where
  id : Nat
  lits : List Literal
  deriving DecidableEq

def Clause.lit_count (cl : Clause) : Nat := cl.lits.length

/-- Ordered duplicate-free insertion, the model of `BTreeSet::insert`. -/
def btree_insert (s : List Nat) (x : Nat) : List Nat :=
  match s with
  | [] => [x]
  | y :: ys => if x < y then x :: y :: ys else if x = y then y :: ys else y :: btree_insert ys x

/-- Rust `dpll::Statistics`. -/
structure Statistics where
  conflicts : Nat
  decisions : Nat
  propagations : Nat
  deriving DecidableEq

def empty_statistics : Statistics := ⟨0, 0, 0⟩

/-- Rust `dpll::Env`: the solver state.  `variableOrder` models the
`PriorityQueue<Variable, OrderedFloat<f32>>`; the priorities ever used are the
nonnegative integers `0, 1, 2, ...` (clause-scan order) and `0.0` (on undo),
all exactly representable, so they are embedded as `Nat`. -/
structure Env where
  problem : List Clause
  decisionStack : List Literal
  assignment : List Value
  watchlist : List (List Nat)
  variableOrder : List (Variable × Nat)
  decisionQueue : List Literal
  statistics : Statistics
  deriving DecidableEq

/-- Rust `dpll::PreprocessResult`. -/
structure PreprocessResult where
  initialAssignment : List Value
  conflictVars : List Variable
  deriving DecidableEq

/-- Rust `dpll::enqueue`. -/
def enqueue (env : Env) (lit : Literal) : Except Fault (PropagateResult × Env) :=
  match env.assignment.get? lit.var.idx with
  | none => .error (Fault.oobAssignment lit.var.idx)
  | some v =>
    let val := lit.under_value v
    if val = Value.UNASSIGNED then
      .ok (PropagateResult.NoConflict,
        { env with
          decisionStack := env.decisionStack ++ [lit],
          assignment := env.assignment.set lit.var.idx lit.satisfy,
          decisionQueue := env.decisionQueue ++ [lit] })
    else if val = Value.LIFTED_FALSE then
      .ok (PropagateResult.Conflict, env)
    else
      .ok (PropagateResult.NoConflict, env)

/-- One `watchlist[i].insert(cid)` step (`IndexMut` plus `BTreeSet::insert`);
`none` models the out-of-bounds panic of the index operation. -/
def insert_watch (w : List (List Nat)) (i : Nat) (cid : Nat) : Option (List (List Nat)) :=
  match w.get? i with
  | none => none
  | some s => some (w.set i (btree_insert s cid))

/-- Drain the remaining watcher iterator back into `watchlist[i]` (the
conflict paths of `propagate_units`). -/
def insert_watch_all (i : Nat) : List Nat → List (List Nat) → Option (List (List Nat))
  | [], w => some w
  | c :: cs, w =>
    match insert_watch w i c with
    | none => none
    | some w2 => insert_watch_all i cs w2

/-- The `for lit_num in 2..cl.lit_count()` scan of `propagate_units`: find the
first position `j ≥ 2` whose literal is not FALSE, swap it into position 1 and
return the updated clause; `k` counts the remaining positions. -/
def find_watch (assignment : List Value) : Clause → Nat → Nat → Except Fault (Option Clause)
  | _, _, 0 => .ok none
  | cl, j, k + 1 =>
    match cl.lits.get? j with
    | none => .error (Fault.oobClause j)
    | some lj =>
      match assignment.get? lj.var.idx with
      | none => .error (Fault.oobAssignment lj.var.idx)
      | some v =>
        if lj.under_value v = Value.LIFTED_FALSE then
          find_watch assignment cl (j + 1) k
        else
          match cl.lits.get? 1 with
          | none => .error (Fault.oobClause 1)
          | some c1 => .ok (some { cl with lits := (cl.lits.set 1 lj).set j c1 })

/-- The `while let Some(idx) = idx_iter.next()` body of `propagate_units`,
iterating over the moved-out watcher set of `false_lit`. -/
def prop_loop (falseLit : Literal) : List Nat → Env → Except Fault (PropagateResult × Env)
  | [], env => .ok (PropagateResult.NoConflict, env)
  | idx :: rest, env =>
    let env := { env with statistics :=
      { env.statistics with propagations := env.statistics.propagations + 1 } }
    match env.problem.get? idx with
    | none => .error (Fault.oobProblem idx)
    | some cl =>
      match cl.lits.get? 1 with
      | none => .error (Fault.oobClause 1)
      | some c1 =>
        let cl := if c1 = falseLit then cl
                  else { cl with lits := (cl.lits.set 0 c1).set 1 falseLit }
        let env := { env with problem := env.problem.set idx cl }
        match cl.lits.get? 0 with
        | none => .error (Fault.oobClause 0)
        | some c0 =>
          match env.assignment.get? c0.var.idx with
          | none => .error (Fault.oobAssignment c0.var.idx)
          | some v0 =>
            if c0.under_value v0 = Value.LIFTED_TRUE then
              match insert_watch env.watchlist falseLit.code cl.id with
              | none => .error (Fault.oobWatchlistInsert falseLit.code)
              | some w => prop_loop falseLit rest { env with watchlist := w }
            else
              match find_watch env.assignment cl 2 (cl.lits.length - 2) with
              | .error f => .error f
              | .ok (some cl2) =>
                let env := { env with problem := env.problem.set idx cl2 }
                match insert_watch env.watchlist falseLit.code cl2.id with
                | none => .error (Fault.oobWatchlistInsert falseLit.code)
                | some w => prop_loop falseLit rest { env with watchlist := w }
              | .ok none =>
                if c0.under_value v0 = Value.LIFTED_FALSE then
                  match insert_watch env.watchlist falseLit.code cl.id with
                  | none => .error (Fault.oobWatchlistInsert falseLit.code)
                  | some w1 =>
                    match insert_watch_all falseLit.code rest w1 with
                    | none => .error (Fault.oobWatchlistInsert falseLit.code)
                    | some w2 =>
                      .ok (PropagateResult.Conflict,
                        { env with
                          watchlist := w2,
                          decisionQueue := [],
                          statistics := { env.statistics with
                            conflicts := env.statistics.conflicts + 1 } })
                else
                  match enqueue env c0 with
                  | .error f => .error f
                  | .ok (PropagateResult.NoConflict, env1) => prop_loop falseLit rest env1
                  | .ok (PropagateResult.Conflict, env1) =>
                    match insert_watch env1.watchlist falseLit.code cl.id with
                    | none => .error (Fault.oobWatchlistInsert falseLit.code)
                    | some w1 =>
                      match insert_watch_all falseLit.code rest w1 with
                      | none => .error (Fault.oobWatchlistInsert falseLit.code)
                      | some w2 =>
                        .ok (PropagateResult.Conflict,
                          { env1 with
                            watchlist := w2,
                            decisionQueue := [],
                            statistics := { env1.statistics with
                              conflicts := env1.statistics.conflicts + 1 } })

/-- Rust `dpll::propagate_units`: move the watcher set of `¬lit` out of the
watchlist (panicking when the index is out of bounds) and walk it. -/
def propagate_units (env : Env) (lit : Literal) : Except Fault (PropagateResult × Env) :=
  let falseLit := lit.negate
  match env.watchlist.get? falseLit.code with
  | none => .error (Fault.oobWatchlist falseLit.code)
  | some watchers =>
    prop_loop falseLit watchers { env with watchlist := env.watchlist.set falseLit.code [] }

/-- The `while let Some(l) = decision_queue.pop_front()` loop of
`next_decision`: skipped literals are discarded. -/
def nd_queue (assignment : List Value) : List Literal → Except Fault (Option Literal × List Literal)
  | [] => .ok (none, [])
  | l :: rest =>
    match assignment.get? l.var.idx with
    | none => .error (Fault.oobAssignment l.var.idx)
    | some v =>
      if v = Value.UNASSIGNED then .ok (some l, rest) else nd_queue assignment rest

/-- `PriorityQueue::pop`: remove a maximal-priority entry (the first maximal
one, ties in the Rust crate being unspecified). -/
def pop_max : List (Variable × Nat) → Option ((Variable × Nat) × List (Variable × Nat))
  | [] => none
  | x :: xs =>
    match pop_max xs with
    | none => some (x, xs)
    | some (m, rest) => if x.2 < m.2 then some (m, x :: rest) else some (x, xs)

/-- The `loop { match env.variable_order.pop() ... }` part of `next_decision`;
`k` is fuel, instantiated with the queue length (each pop removes an entry). -/
def nd_order (assignment : List Value) :
    Nat → List (Variable × Nat) → Except Fault (Option Literal × List (Variable × Nat))
  | 0, ord => .ok (none, ord)
  | k + 1, ord =>
    match pop_max ord with
    | none => .ok (none, ord)
    | some ((v, _), rest) =>
      match assignment.get? v.idx with
      | none => .error (Fault.oobAssignment v.idx)
      | some val =>
        if val = Value.UNASSIGNED then .ok (some v.to_positive_literal, rest)
        else nd_order assignment k rest

/-- Rust `dpll::next_decision`. -/
def next_decision (env : Env) : Except Fault (Option Literal × Env) :=
  match nd_queue env.assignment env.decisionQueue with
  | .error f => .error f
  | .ok (some l, q) => .ok (some l, { env with decisionQueue := q })
  | .ok (none, q) =>
    match nd_order env.assignment env.variableOrder.length env.variableOrder with
    | .error f => .error f
    | .ok (r, ord) => .ok (r, { env with decisionQueue := q, variableOrder := ord })

/-- Rust `dpll::undo_last_decision`: pop the last trail entry, clear its
assignment, push the variable back with priority `0.0`. -/
def undo_last_decision (env : Env) : Except Fault Env :=
  match env.decisionStack.getLast? with
  | none => .ok env
  | some l =>
    if l.var.idx < env.assignment.length then
      .ok { env with
        decisionStack := env.decisionStack.dropLast,
        assignment := env.assignment.set l.var.idx Value.UNASSIGNED,
        variableOrder := env.variableOrder ++ [(l.var, 0)] }
    else .error (Fault.oobAssignment l.var.idx)

/-- The `clauses.retain(...)` closure of `preprocess`, folded over the clause
list in order; returns the retained clauses and the conflict variables. -/
def preprocess_go (ia : List Value) : List Clause → Except Fault (List Clause × List Variable)
  | [] => .ok ([], [])
  | cl :: rest =>
    match cl.lits with
    | [] => preprocess_go ia rest
    | [l] =>
      match ia.get? l.var.idx with
      | none => .error (Fault.oobAssignment l.var.idx)
      | some ca =>
        if ca = Value.UNASSIGNED then preprocess_go ia rest
        else if l.satisfy = ca then preprocess_go ia rest
        else
          match preprocess_go ia rest with
          | .error f => .error f
          | .ok (ks, cvs) => .ok (cl :: ks, l.var :: cvs)
    | _ :: _ :: _ =>
      match preprocess_go ia rest with
      | .error f => .error f
      | .ok (ks, cvs) => .ok (cl :: ks, cvs)

/-- Rust `dpll::preprocess`.  Note that the retain closure never writes
`initial_assignment`; the vector stays as `ensure_index` left it. -/
def preprocess (clauses : List Clause) (next_var : Variable) :
    Except Fault (List Clause × PreprocessResult) :=
  match preprocess_go (ensure_index ([] : List Value) next_var.idx Value.UNASSIGNED) clauses with
  | .error f => .error f
  | .ok (kept, cvs) =>
    .ok (kept, ⟨ensure_index ([] : List Value) next_var.idx Value.UNASSIGNED, cvs⟩)

/-- Literal scan of one clause in `initial_variable_order`. -/
def ivo_clause (pq : List (Variable × Nat)) (prio : Nat) (seen : List Variable) :
    List Literal → List (Variable × Nat) × Nat × List Variable
  | [] => (pq, prio, seen)
  | l :: rest =>
    let v := l.var
    if v ∈ seen then ivo_clause pq prio seen rest
    else ivo_clause (pq ++ [(v, prio)]) (prio + 1) (seen ++ [v]) rest

/-- Clause scan of `initial_variable_order`. -/
def ivo_go (pq : List (Variable × Nat)) (prio : Nat) (seen : List Variable) :
    List Clause → List (Variable × Nat)
  | [] => pq
  | cl :: rest =>
    match ivo_clause pq prio seen cl.lits with
    | (pq2, prio2, seen2) => ivo_go pq2 prio2 seen2 rest

/-- Rust `dpll::initial_variable_order`: priority is first-seen scan order. -/
def initial_variable_order (clauses : List Clause) : List (Variable × Nat) :=
  ivo_go [] 0 [] clauses

/-- Rust `dpll::intern_clauses`: renumber clause identifiers to match their
position in the clause store. -/
def intern_go (n : Nat) : List Clause → List Clause
  | [] => []
  | cl :: rest => { cl with id := n } :: intern_go (n + 1) rest

def intern_clauses (clauses : List Clause) : List Clause := intern_go 0 clauses

/-- Rust `dpll::initialize_watchlist`: for each clause, `ensure_index` both
watched literal slots and insert the clause identifier under each. -/
def initialize_watchlist : List Clause → List (List Nat) → Except Fault (List (List Nat))
  | [], w => .ok w
  | cl :: rest, w =>
    match cl.lits.get? 0 with
    | none => .error (Fault.oobClause 0)
    | some l0 =>
      match cl.lits.get? 1 with
      | none => .error (Fault.oobClause 1)
      | some l1 =>
        let w := ensure_index w l0.code ([] : List Nat)
        let w := ensure_index w l1.code ([] : List Nat)
        match insert_watch w l0.code cl.id with
        | none => .error (Fault.oobWatchlistInsert l0.code)
        | some w2 =>
          match insert_watch w2 l1.code cl.id with
          | none => .error (Fault.oobWatchlistInsert l1.code)
          | some w3 => initialize_watchlist rest w3

/-- The `Env` literal constructed in `solve`: note `watchlist` is a fresh
zero-length vector, not the index built by `initialize_watchlist`. -/
def initial_env (problem : List Clause) (assignment : List Value)
    (order : List (Variable × Nat)) : Env :=
  { problem := problem,
    decisionStack := [],
    assignment := assignment,
    watchlist := [],
    variableOrder := order,
    decisionQueue := [],
    statistics := empty_statistics }

/-- The `while let Some(next_lit) = next_decision(&mut env)` loop of `solve`,
with explicit fuel. -/
def solve_loop : Nat → Env → Except Fault Result
  | 0, _ => .error Fault.fuelOut
  | fuel + 1, env =>
    match next_decision env with
    | .error f => .error f
    | .ok (none, _) => .ok Result.Sat
    | .ok (some next_lit, env1) =>
      match propagate_units env1 next_lit with
      | .error f => .error f
      | .ok (PropagateResult.NoConflict, env2) => solve_loop fuel env2
      | .ok (PropagateResult.Conflict, env2) =>
        match undo_last_decision env2 with
        | .error f => .error f
        | .ok env3 =>
          solve_loop fuel { env3 with decisionQueue := env3.decisionQueue ++ [next_lit.negate] }

/-- Rust `dpll::solve`.  The watch index built by `initialize_watchlist` is
evaluated (its panics propagate) and then dropped, exactly as in the source. -/
def solve (fuel : Nat) (clauses : List Clause) (next_var : Variable) : Except Fault Result :=
  match preprocess clauses next_var with
  | .error f => .error f
  | .ok (clauses2, pp) =>
    if 0 < pp.conflictVars.length then .ok Result.Unsat
    else
      match initialize_watchlist (intern_clauses clauses2) [] with
      | .error f => .error f
      | .ok _ =>
        solve_loop fuel
          (initial_env (intern_clauses clauses2) pp.initialAssignment
            (initial_variable_order clauses2))

/-- Membership of a clause identifier in `watchlist[i]`. -/
def watch_member (w : List (List Nat)) (i : Nat) (cid : Nat) : Bool :=
  match w.get? i with
  | some s => s.contains cid
  | none => false

/-- The watch well-formedness invariant of the specification: every clause
with at least two literals is watched exactly at `c[0]` and `c[1]`. -/
def watch_invariant (env : Env) : Bool :=
  env.problem.all fun cl =>
    match cl.lits with
    | l0 :: l1 :: _ =>
      watch_member env.watchlist l0.code cl.id &&
      watch_member env.watchlist l1.code cl.id &&
      (List.range env.watchlist.length).all fun i =>
        (i == l0.code) || (i == l1.code) || !(watch_member env.watchlist i cl.id)
    | _ => true

/-- Modelled from the spec: a literal is true under a total Boolean
assignment of the variables (positive literal iff the variable is true). -/
def spec_lit_sat (a : Variable → Bool) (l : Literal) : Bool :=
  if l.code % 2 = 0 then a l.var else !(a l.var)

/-- Modelled from the spec: a clause is satisfied when some literal is true. -/
def spec_clause_sat (a : Variable → Bool) (cl : Clause) : Bool :=
  cl.lits.any (spec_lit_sat a)

/-- Modelled from the spec: a clause list is satisfied when every clause is. -/
def spec_formula_sat (a : Variable → Bool) (cls : List Clause) : Bool :=
  cls.all (spec_clause_sat a)

/-- The clause list parsed from `p cnf 1 2 / 1 0 / -1 0`: two conflicting unit
clauses over variable 0 (DIMACS variable 1), with `next_var = 1`. -/
def conflicting_unit_clauses : List Clause := [⟨0, [⟨0⟩]⟩, ⟨1, [⟨1⟩]⟩]

/-- An input whose only clause is empty. -/
def empty_clause_input : List Clause := [⟨0, []⟩]

/-- An input with one binary clause `x0 ∨ x1` (literal codes 0 and 2),
`next_var = 2`. -/
def two_literal_input : List Clause := [⟨0, [⟨0⟩, ⟨2⟩]⟩]

/-- One unassigned variable, empty everything else: the state in which
`enqueue` is given the negative literal of the unassigned variable 0. -/
def env_enqueue_neg : Env :=
  ⟨[], [], [Value.UNASSIGNED], [], [], [], ⟨0, 0, 0⟩⟩

/-- A state whose decision queue holds the literal `x0` while variable 0 is
unassigned; the watchlist has (empty) entries for both literals of
variable 0. -/
def env_decision : Env :=
  ⟨[], [], [Value.UNASSIGNED], [[], []], [], [⟨0⟩], ⟨0, 0, 0⟩⟩

/-- `env_decision` after `next_decision` popped the queued literal. -/
def env_decision_popped : Env :=
  ⟨[], [], [Value.UNASSIGNED], [[], []], [], [], ⟨0, 0, 0⟩⟩

/-- A well-formed propagation state: one clause `x1 ∨ ¬x0 ∨ x2` (literal
codes 2, 1, 4) watched on its first two literals, variable 0 assigned TRUE
(the literal `x0` was just decided), variables 1 and 2 unassigned. -/
def env_watch : Env :=
  ⟨[⟨0, [⟨2⟩, ⟨1⟩, ⟨4⟩]⟩], [⟨0⟩], [⟨0⟩, ⟨2⟩, ⟨2⟩],
    [[], [0], [0], [], [], []], [], [], ⟨0, 0, 0⟩⟩

/-- The state `propagate_units env_watch x0` computes: the watch moved inside
the clause (now `x1 ∨ x2 ∨ ¬x0`) but the watchlist still registers the clause
under `¬x0` (code 1) and nowhere under the new watch `x2` (code 4). -/
def env_watch_after : Env :=
  ⟨[⟨0, [⟨2⟩, ⟨4⟩, ⟨1⟩]⟩], [⟨0⟩], [⟨0⟩, ⟨2⟩, ⟨2⟩],
    [[], [0], [0], [], [], []], [], [], ⟨0, 0, 1⟩⟩

lemma ensure_index_empty (α : Type) (n : Nat) (t : α) :
    ensure_index ([] : List α) n t = List.replicate n t := by
  unfold ensure_index
  cases n with
  | zero => simp
  | succ k => simp

lemma replicate_unassigned_get (n : Nat) :
    ∀ i : Nat, (List.replicate n Value.UNASSIGNED).get? i = some Value.UNASSIGNED ∨
      (List.replicate n Value.UNASSIGNED).get? i = none := by
  induction n with
  | zero => intro i; right; cases i <;> rfl
  | succ n ih =>
    intro i
    cases i with
    | zero => left; rfl
    | succ j => simpa [List.replicate] using ih j

lemma preprocess_go_no_conflicts (ia : List Value)
    (hia : ∀ i, ia.get? i = some Value.UNASSIGNED ∨ ia.get? i = none) :
    ∀ cls ks cvs, preprocess_go ia cls = Except.ok (ks, cvs) → cvs = [] := by
  intro cls
  induction cls with
  | nil =>
    intro ks cvs h
    simp [preprocess_go] at h
    exact h.2
  | cons cl rest ih =>
    intro ks cvs h
    rcases cl with ⟨cid, lits⟩
    rcases lits with _ | ⟨l, ls⟩
    · exact ih ks cvs h
    · rcases ls with _ | ⟨l2, ls2⟩
      · unfold preprocess_go at h
        try dsimp only at h
        rcases hget : ia.get? l.var.idx with _ | ca
        · rw [hget] at h
          cases h
        · have hU : ca = Value.UNASSIGNED := by
            rcases hia l.var.idx with hu | hn
            · rw [hget] at hu; exact Option.some.inj hu
            · rw [hget] at hn; cases hn
          rw [hget] at h
          try dsimp only at h
          rw [hU, if_pos rfl] at h
          exact ih ks cvs h
      · unfold preprocess_go at h
        try dsimp only at h
        rcases hrec : preprocess_go ia rest with f | ⟨ks2, cvs2⟩
        · rw [hrec] at h; cases h
        · rw [hrec] at h
          injection h with h1
          injection h1 with h2 h3
          exact h3 ▸ ih ks2 cvs2 hrec

lemma preprocess_ok_no_conflicts (cls : List Clause) (nv : Variable)
    (out : List Clause × PreprocessResult) (h : preprocess cls nv = Except.ok out) :
    out.2.conflictVars = [] := by
  unfold preprocess at h
  have hia : ∀ i, (ensure_index ([] : List Value) nv.idx Value.UNASSIGNED).get? i =
      some Value.UNASSIGNED ∨
      (ensure_index ([] : List Value) nv.idx Value.UNASSIGNED).get? i = none := by
    intro i
    rw [ensure_index_empty]
    exact replicate_unassigned_get nv.idx i
  rcases hg : preprocess_go (ensure_index ([] : List Value) nv.idx Value.UNASSIGNED) cls
      with f | ⟨ks, cvs⟩
  · rw [hg] at h; cases h
  · rw [hg] at h
    have hcv := preprocess_go_no_conflicts _ hia cls ks cvs hg
    injection h with h1
    rw [← h1]
    exact hcv

lemma solve_loop_ok :
    ∀ fuel env r, solve_loop fuel env = Except.ok r → r = Result.Sat := by
  intro fuel
  induction fuel with
  | zero =>
    intro env r h
    simp [solve_loop] at h
  | succ n ih =>
    intro env r h
    unfold solve_loop at h
    rcases hnd : next_decision env with f | ⟨ol, env1⟩
    · rw [hnd] at h; cases h
    · rw [hnd] at h
      rcases ol with _ | l
      · try dsimp only at h
        injection h with h1
        exact h1.symm
      · try dsimp only at h
        rcases hp : propagate_units env1 l with f | ⟨pr, env2⟩
        · rw [hp] at h; cases h
        · rw [hp] at h
          rcases pr with _ | _
          · try dsimp only at h
            rcases hu : undo_last_decision env2 with f | env3
            · rw [hu] at h; cases h
            · rw [hu] at h
              try dsimp only at h
              exact ih _ r h
          · try dsimp only at h
            exact ih env2 r h

/-- C1: the claim fails on the code.  On the unsatisfiable clause list
`{x0} , {¬x0}`, `solve` returns Sat (with an empty assignment) even though no
Boolean assignment of the variables satisfies every input clause: preprocess
silently discards both unit clauses without asserting them. -/
theorem c1_solve_sat_on_unsat_formula :
    solve 1 conflicting_unit_clauses ⟨1⟩ = Except.ok Result.Sat ∧
    ∀ a : Variable → Bool, spec_formula_sat a conflicting_unit_clauses = false := by
  constructor
  · rfl
  · intro a
    cases h : a ⟨0⟩ <;>
      simp [conflicting_unit_clauses, spec_formula_sat, spec_clause_sat, spec_lit_sat,
        Literal.var, h]

/-- C1 witness: the refutation instantiated at the all-true assignment. -/
theorem c1_witness :
    solve 1 conflicting_unit_clauses ⟨1⟩ = Except.ok Result.Sat ∧
    spec_formula_sat (fun _ => true) conflicting_unit_clauses = false :=
  ⟨c1_solve_sat_on_unsat_formula.1, c1_solve_sat_on_unsat_formula.2 (fun _ => true)⟩

/-- C2: the claim fails on the code.  The search driver never calls `enqueue`
on a decision literal: on a state where `next_decision` yields `x0` with
variable 0 unassigned, the subsequent `propagate_units` call leaves the
assignment UNASSIGNED and the trail empty, whereas asserting the decision
would have set `assignment[0] = satisfy(x0) = TRUE` and appended `x0` to the
trail.  (The `Env` of the code also has no decision-boundary stack at all.) -/
theorem c2_decision_not_asserted :
    next_decision env_decision = Except.ok (some ⟨0⟩, env_decision_popped) ∧
    propagate_units env_decision_popped ⟨0⟩ =
      Except.ok (PropagateResult.NoConflict, env_decision_popped) ∧
    env_decision_popped.assignment = [Value.UNASSIGNED] ∧
    env_decision_popped.decisionStack = [] ∧
    Literal.satisfy ⟨0⟩ = Value.LIFTED_TRUE :=
  ⟨rfl, rfl, rfl, rfl, rfl⟩

/-- C3: the claim fails on the code.  Starting from a state satisfying the
watch invariant, a successful (NoConflict) `propagate_units` call that moves a
watch re-inserts the clause under the falsified literal `¬x0` instead of the
new watch, so afterwards the clause id is absent from `watchlist[c[1]]` and
present in `watchlist[¬x0]` with `¬x0 ∉ {c[0], c[1]}`. -/
theorem c3_watch_invariant_broken :
    watch_invariant env_watch = true ∧
    propagate_units env_watch ⟨0⟩ = Except.ok (PropagateResult.NoConflict, env_watch_after) ∧
    watch_invariant env_watch_after = false :=
  ⟨rfl, rfl, rfl⟩

/-- C4: the claim fails on the code.  For the negative literal `¬x0` with
variable 0 UNASSIGNED, `enqueue` returns NoConflict without mutating any state
(the returned environment is the input one): `under_value` yields Value 3,
which is neither the UNASSIGNED constant nor FALSE, so the code takes the
branch reserved for already-assigned literals. -/
theorem c4_enqueue_skips_negative_unassigned :
    env_enqueue_neg.assignment.get? (Literal.var ⟨1⟩).idx = some Value.UNASSIGNED ∧
    enqueue env_enqueue_neg ⟨1⟩ = Except.ok (PropagateResult.NoConflict, env_enqueue_neg) :=
  ⟨rfl, rfl⟩

/-- C5: the claim fails on the code.  On the clause list parsed from
`p cnf 1 2 / 1 0 / -1 0` (conflicting unit clauses), `solve` returns Sat, not
Unsat: preprocess drops both unit clauses without recording any assignment,
so no conflict variable is ever pushed. -/
theorem c5_conflicting_units_sat :
    solve 1 conflicting_unit_clauses ⟨1⟩ = Except.ok Result.Sat ∧
    preprocess conflicting_unit_clauses ⟨1⟩ =
      Except.ok ([], ⟨[Value.UNASSIGNED], []⟩) :=
  ⟨rfl, rfl⟩

/-- C6: the claim fails on the code.  On an input consisting of one empty
clause, `solve` returns Sat, not Unsat: preprocess removes empty clauses
without recording unsatisfiability. -/
theorem c6_empty_clause_sat :
    solve 1 empty_clause_input ⟨1⟩ = Except.ok Result.Sat :=
  rfl

/-- C7: confirmed.  `preprocess` never writes its initial assignment, so its
conflict-variable list is empty on every successfully preprocessed input, and
every normally terminating run of `solve` returns Sat, never Unsat. -/
theorem c7_solve_only_sat :
    (∀ (cls : List Clause) (nv : Variable) (out : List Clause × PreprocessResult),
        preprocess cls nv = Except.ok out → out.2.conflictVars = []) ∧
    (∀ (fuel : Nat) (cls : List Clause) (nv : Variable) (r : Result),
        solve fuel cls nv = Except.ok r → r = Result.Sat) := by
  constructor
  · exact preprocess_ok_no_conflicts
  · intro fuel cls nv r h
    unfold solve at h
    rcases hp : preprocess cls nv with f | ⟨cls2, pp⟩
    · rw [hp] at h; cases h
    · rw [hp] at h
      try dsimp only at h
      have hcv : pp.conflictVars = [] := preprocess_ok_no_conflicts cls nv (cls2, pp) hp
      rw [hcv] at h
      simp only [List.length_nil, lt_irrefl, if_false] at h
      rcases hw : initialize_watchlist (intern_clauses cls2) [] with f | w
      · rw [hw] at h; cases h
      · rw [hw] at h
        exact solve_loop_ok fuel _ r h

/-- C7 witness: both parts applied to the conflicting-unit input (whose
preprocessing succeeds) and to the empty problem. -/
theorem c7_witness :
    (⟨[Value.UNASSIGNED], []⟩ : PreprocessResult).conflictVars = [] ∧
    Result.Sat = Result.Sat :=
  ⟨c7_solve_only_sat.1 conflicting_unit_clauses ⟨1⟩ ([], ⟨[Value.UNASSIGNED], []⟩) rfl,
   c7_solve_only_sat.2 1 empty_clause_input ⟨1⟩ Result.Sat rfl⟩

/-- C8 counterexample: on an input with a two-literal clause (where the
initial variable order is nonempty, so `next_decision` would have a literal
to yield), `solve` panics inside `initialize_watchlist` at the watch-index
insert (the `ensure_index` off-by-one leaves slot 2 unaddressable) and never
reaches `propagate_units`: the fault is not the `watchlist[negate ℓ]` read
that the claim designates. -/
theorem c8_counterexample :
    solve 1 two_literal_input ⟨2⟩ = Except.error (Fault.oobWatchlistInsert 2) ∧
    Fault.is_oob_watchlist (Fault.oobWatchlistInsert 2) = false ∧
    initial_variable_order (intern_clauses two_literal_input) = [(⟨0⟩, 0), (⟨1⟩, 1)] :=
  ⟨rfl, rfl, rfl⟩

/-- C8 amended: `solve` does construct its engine with a zero-length
watchlist (the index built by `initialize_watchlist` is discarded), and on a
zero-length watchlist any `propagate_units` call panics at the
`watchlist[negate ℓ]` access, for every literal; but that call is never
reached from `solve`, which panics earlier in `initialize_watchlist` on every
input that retains a clause. -/
theorem c8_amended :
    (∀ (problem : List Clause) (ia : List Value) (ord : List (Variable × Nat)),
        (initial_env problem ia ord).watchlist = []) ∧
    (∀ (env : Env) (lit : Literal), env.watchlist = [] →
        propagate_units env lit = Except.error (Fault.oobWatchlist lit.negate.code)) := by
  constructor
  · intro p ia ord
    rfl
  · intro env lit h
    unfold propagate_units
    rw [h]
    rfl

/-- C8 witness: the amended statement applied to the empty engine state and
the literal `x0`. -/
theorem c8_witness :
    propagate_units (initial_env [] [] []) ⟨0⟩ = Except.error (Fault.oobWatchlist 1) :=
  c8_amended.2 (initial_env [] [] []) ⟨0⟩ (c8_amended.1 [] [] [])

/-- C9 counterexample: for the negative literal `¬x0`, evaluating under an
UNASSIGNED variable yields Value 3 (`2 xor 1`), not the UNASSIGNED constant
Value 2. -/
theorem c9_counterexample :
    Literal.under_value ⟨1⟩ Value.UNASSIGNED ≠ Value.UNASSIGNED := by
  decide

/-- C9 amended: `under_value ℓ UNASSIGNED` is always unassigned in the lifted
sense of `is_unassigned` (code ≥ 2); it equals the UNASSIGNED constant exactly
for positive literals, while for negative literals it is Value 3. -/
theorem c9_amended (l : Literal) :
    (l.under_value Value.UNASSIGNED).is_unassigned = true ∧
    (l.code % 2 = 0 → l.under_value Value.UNASSIGNED = Value.UNASSIGNED) ∧
    (l.code % 2 = 1 → l.under_value Value.UNASSIGNED = ⟨3⟩) := by
  rcases Nat.mod_two_eq_zero_or_one l.code with h | h <;>
    refine ⟨?_, ?_, ?_⟩ <;>
    simp [Literal.under_value, Value.is_unassigned, Value.UNASSIGNED, h]

/-- C9 witness: the amended statement at the positive and negative literals
of variable 0. -/
theorem c9_witness :
    Literal.under_value ⟨0⟩ Value.UNASSIGNED = Value.UNASSIGNED ∧
    Literal.under_value ⟨1⟩ Value.UNASSIGNED = ⟨3⟩ :=
  ⟨(c9_amended ⟨0⟩).2.1 rfl, (c9_amended ⟨1⟩).2.2 rfl⟩

/-- C10: the claim fails on the code.  `ensure_index` grows the vector only to
length `i`, so index `i` itself stays unaddressable: after
`ensure_index [] 1 d` the vector is `[d]` and a read at index 1 fails, and
after `ensure_index [] 0 d` the vector is still empty and a read at index 0
fails, contrary to the doc comment of the function. -/
theorem c10_ensure_index_not_addressable :
    ensure_index ([] : List Nat) 1 7 = [7] ∧
    ([7] : List Nat).get? 1 = none ∧
    ensure_index ([] : List Nat) 0 7 = [] ∧
    ([] : List Nat).get? 0 = none :=
  ⟨rfl, rfl, rfl, rfl⟩

end Satir

